import Mathlib

/-!
# A shallow embedding of the GDPyS entity-resolution core

This file embeds the `Level` and `Song` entity code of the GDPyS
repository (`objects/level.py`, `objects/song.py`, plus the helpers they
import) and proves or refutes the specification claims about it.

Modelling conventions:

* Asynchronous calls are modelled as direct calls: an `await f(x)` becomes
  an application of the embedded `f`.  Where the source *omits* an `await`
  (so the Python value is a coroutine object, not the awaited result) the
  embedding still applies the embedded function and the surrounding doc
  comment points the omission out; none of the settled claims hinges on
  the distinction, because the decisive behaviour (missing `return`,
  missing cache insert, retained stale state) is identical either way.
* The external collaborators (MySQL adapter, Boomlings HTTP client, the
  file store, the shared caches, the user resolver) are an explicit
  environment record of pure functions, and every interaction with them
  is recorded in an event trace returned alongside the result.
* Python exceptions are `Except String`; Python `None` results are
  `Option.none`; machine integers are `Int` (Python ints are unbounded).
* Python truthiness of an `int` is `≠ 0`, of a `str` is `≠ ""`.
-/

/-- Numeric value of a list of decimal digit characters. -/
def natOfDigits (l : List Char) : Nat :=
  l.foldl (fun a c => 10 * a + (c.toNat - 48)) 0

/-- Embedding of Python's `int(s)` on the forms the code meets: an
optional leading minus sign followed by one or more decimal digits.
(Surrounding whitespace, `+` signs and underscores, which Python also
accepts, never occur in the catalog wire format and are not modelled.) -/
def pyIntChars : List Char → Option Int
  | [] => none
  | '-' :: rest =>
    if rest ≠ [] ∧ rest.all Char.isDigit then some (-(natOfDigits rest : Int)) else none
  | l =>
    if l.all Char.isDigit then some (natOfDigits l : Int) else none

/-- `int(s)` on a `String`. -/
def pyInt (s : String) : Option Int :=
  pyIntChars s.data

/-- A Python `float` holding a decimal literal, kept exact as
`mantissa / 10 ^ shift`.  The entity code only stores and copies these
values (it never computes with them), so an exact decimal representation
is a faithful abstraction of the IEEE value. -/
structure PyFloat where
  mantissa : Int
  shift : Nat
deriving DecidableEq, Repr

/-- Embedding of Python's `float(s)` on the decimal forms the catalog
uses: optional minus sign, digits, optional fractional part.
(Scientific notation and the special values, which the catalog never
sends, are not modelled.) -/
def pyFloat (s : String) : Option PyFloat :=
  let (neg, t) :=
    match s.data with
    | '-' :: r => (true, r)
    | r => (false, r)
  let signed : Int → Int := fun v => if neg then -v else v
  match t.splitOn '.' with
  | [a] =>
    if a ≠ [] ∧ a.all Char.isDigit then
      some ⟨signed (natOfDigits a : Int), 0⟩
    else none
  | [a, b] =>
    if (a ≠ [] ∨ b ≠ []) ∧ a.all Char.isDigit ∧ b.all Char.isDigit then
      some ⟨signed (natOfDigits (a ++ b) : Int), b.length⟩
    else none
  | _ => none

/-- Modelled from the spec: `is_numeric` is imported by `objects/song.py`
from `helpers.common`, but the provided `helpers/common.py` does not
define it.  The spec describes its role as detecting a "numeric-only"
external-catalog response body (such as the catalog's `-1` error reply),
so it is modelled as "the whole body parses as an integer". -/
def is_numeric (s : String) : Bool :=
  (pyInt s).isSome

/-- Splits a character list on the catalog's `~|~` delimiter.  Helper for
`parse_to_dict` below. -/
def splitTilde : List Char → List Char → List (List Char)
  | '~' :: '|' :: '~' :: rest, acc => acc.reverse :: splitTilde rest []
  | c :: rest, acc => splitTilde rest (c :: acc)
  | [], acc => [acc.reverse]

/-- Modelled from the spec: `parse_to_dict` is imported by
`objects/song.py` from `utils.gdform`, which is not among the provided
sources.  The spec describes the wire format as a pipe/tilde-delimited
key-value sequence decoded into an integer-indexed mapping, so the body
is split on `~|~` and consecutive items are paired as key and value,
keeping the pairs whose key is an integer. -/
def parse_to_dict (s : String) : List (Int × String) :=
  pairUp (splitTilde s.data [])
where
  pairUp : List (List Char) → List (Int × String)
    | k :: v :: rest =>
      (match pyIntChars k with
       | some i => [(i, String.mk v)]
       | none => []) ++ pairUp rest
    | _ => []

/-- Lookup in the decoded mapping (Python `parsed_resp[key]`; a missing
key raises `KeyError`, which callers embed as `Except.error`). -/
def dictGet (d : List (Int × String)) (k : Int) : Option String :=
  (d.find? (fun p => p.fst = k)).map Prod.snd

/-- Embedding of CPython's `sys.getsizeof` on `str` values (64-bit
CPython 3.8–3.11 compact strings): a fixed object overhead plus one, two
or four bytes per character depending on the widest code point present.
This is the size measure `objects/level.py` compares against
`MAX_CACHE_SIZE`. -/
def getsizeof (s : String) : Nat :=
  if s.data.all (fun c => c.toNat < 128) then 49 + s.length
  else if s.data.all (fun c => c.toNat < 256) then 73 + s.length
  else if s.data.all (fun c => c.toNat < 65536) then 74 + 2 * s.length
  else 76 + 4 * s.length

/-- `MAX_CACHE_SIZE` from `objects/level.py` line 13. -/
def MAX_CACHE_SIZE : Nat := 5000

/-! ## The Song entity (`objects/song.py`) -/

/-- `Song` from `objects/song.py`.  The field defaults are exactly the
placeholder values set by `Song.__init__` (lines 12–22); in particular a
freshly constructed song carries the sentinel identifier `-1`. -/
structure Song where
  id : Int := -1
  title : String := ""
  author_id : Int := 0
  author_name : String := ""
  size : PyFloat := ⟨0, 0⟩
  author_yt : String := ""
  url : String := ""
deriving DecidableEq, Repr

/-- `Song()`: the empty placeholder produced by the bare constructor. -/
def Song.empty : Song := {}

/-- A row of the `songs` table in the column order of the `SELECT` in
`Song.from_sql`: `id, title, author_id, author_name, size, author_yt,
download`. -/
structure SongRow where
  id : Int
  title : String
  author_id : Int
  author_name : String
  size : PyFloat
  author_yt : String
  download : String
deriving DecidableEq, Repr

/-- The positional unpacking of a `songs` row onto a fresh `Song`
(`Song.from_sql` lines 55–64). -/
def songOfRow (r : SongRow) : Song :=
  { id := r.id, title := r.title, author_id := r.author_id,
    author_name := r.author_name, size := r.size,
    author_yt := r.author_yt, url := r.download }

/-- The parameters of the `INSERT INTO songs` statement issued by
`Song.insert` (the id slot is `None` when the sentinel was converted for
auto-increment). -/
structure SongInsertParams where
  id : Option Int
  title : String
  author_id : Int
  author_name : String
  size : PyFloat
  author_yt : String
  download : String
deriving DecidableEq, Repr

/-- One observable interaction of the Song code with its collaborators:
the shared song cache (`glob.song_cache`), the MySQL adapter
(`glob.sql`), the Boomlings HTTP client (`post_request`) and the logger
(`error`/`debug`). -/
inductive SongEvent where
  | cacheGet (id : Int)
  | cacheInsert (id : Int) (s : Song)
  | sqlFetch (id : Int)
  | sqlInsert (p : SongInsertParams)
  | boomRequest (id : Int)
  | logError (id : Int)
  | logDebug (body : String)
deriving DecidableEq, Repr

/-- The collaborators of the Song code, as pure functions: the shared
cache contents, the `songs` table, the body the Boomlings API answers
for each id, and the row id the adapter reports for an `INSERT`. -/
structure SongEnv where
  cache : Int → Option Song
  sql : Int → Option SongRow
  boomlings : Int → String
  lastrowid : Int

/-- `Song.from_sql` (lines 30–66): fetch one row by id; `None` row means
a `None` result, otherwise the row is unpacked onto a fresh song. -/
def Song.from_sql (env : SongEnv) (song_id : Int) :
    Option Song × List SongEvent :=
  match env.sql song_id with
  | none => (none, [.sqlFetch song_id])
  | some r => (some (songOfRow r), [.sqlFetch song_id])

/-- The body of `Song.from_boomlings` after the POST request returned
`body`: a numeric-only or empty body is logged (`error`, then `debug`)
and yields `None`; otherwise the body is decoded and the keys
1,2,3,4,5,7,10 are read — a missing key raises `KeyError` and a
non-numeric id/author id/size raises `ValueError`, neither of which the
source catches. -/
def decodeBoomlings (song_id : Int) (body : String) :
    Except String (Option Song) × List SongEvent :=
  if is_numeric body || body = "" then
    (.ok none, [.boomRequest song_id, .logError song_id, .logDebug body])
  else
    match dictGet (parse_to_dict body) 1, dictGet (parse_to_dict body) 2,
        dictGet (parse_to_dict body) 3, dictGet (parse_to_dict body) 4,
        dictGet (parse_to_dict body) 5, dictGet (parse_to_dict body) 7,
        dictGet (parse_to_dict body) 10 with
    | some v1, some v2, some v3, some v4, some v5, some v7, some v10 =>
      match pyInt v1, pyInt v3, pyFloat v5 with
      | some i1, some i3, some f5 =>
        (.ok (some { id := i1, title := v2, author_id := i3,
                     author_name := v4, size := f5, author_yt := v7,
                     url := v10 }),
         [.boomRequest song_id])
      | _, _, _ => (.error "ValueError", [.boomRequest song_id])
    | _, _, _, _, _, _, _ => (.error "KeyError", [.boomRequest song_id])

/-- `Song.from_boomlings` (lines 68–114): POST to the Boomlings API for
`song_id` and handle the returned body with `decodeBoomlings`. -/
def Song.from_boomlings (env : SongEnv) (song_id : Int) :
    Except String (Option Song) × List SongEvent :=
  decodeBoomlings song_id (env.boomlings song_id)

/-- `Song.insert` (lines 155–179): the sentinel id `-1` is converted to
`None` so the store auto-generates one, the row is written, and the
object's id is replaced by the adapter's last row id.  Note the source
performs no "already exists" check: the write happens for any id. -/
def Song.insert (env : SongEnv) (s : Song) : Song × List SongEvent :=
  let idParam : Option Int := if s.id = -1 then none else some s.id
  ({ s with id := env.lastrowid },
   [.sqlInsert { id := idParam, title := s.title, author_id := s.author_id,
                 author_name := s.author_name, size := s.size,
                 author_yt := s.author_yt, download := s.url }])

/-- `Song.from_id` (lines 116–153): falsy id → fresh empty placeholder,
no tier touched; then cache, then MySQL (hit → cache insert), then
Boomlings (hit → store insert, then cache insert); otherwise `None`. -/
def Song.from_id (env : SongEnv) (song_id : Int) :
    Except String (Option Song) × List SongEvent :=
  if song_id = 0 then (.ok (some Song.empty), [])
  else
    let rest : Except String (Option Song) × List SongEvent :=
      match env.cache song_id with
      | some s => (.ok (some s), [])
      | none =>
        match Song.from_sql env song_id with
        | (some s, tr1) => (.ok (some s), tr1 ++ [.cacheInsert s.id s])
        | (none, tr1) =>
          match Song.from_boomlings env song_id with
          | (.error e, tr2) => (.error e, tr1 ++ tr2)
          | (.ok (some s), tr2) =>
            let (s2, tr3) := Song.insert env s
            (.ok (some s2), tr1 ++ tr2 ++ tr3 ++ [.cacheInsert s2.id s2])
          | (.ok none, tr2) => (.ok none, tr1 ++ tr2)
    (rest.1, .cacheGet song_id :: rest.2)

/-! ## The Level entity (`objects/level.py`) -/

/-- Modelled from the spec: the user-account object (`objects/user.py`
is not among the provided sources; the spec treats user resolution as an
out-of-scope collaborator).  Only the identifier is relevant here: a
fresh `User()` placeholder carries id `0`. -/
structure User where
  id : Int := 0
deriving DecidableEq, Repr

/-- `Level` from `objects/level.py`.  Field defaults are exactly the
placeholder values of `Level.__init__` (lines 20–59).  `song` is an
`Option` because `Level.update` assigns it the result of `Song.from_id`,
which can be Python `None`; the constructor default is `Song()`.
Enum-typed fields (`length`, `difficulty`, `rate_status`) are their
numeric codes (the enums live in `const.py`, outside the provided
sources; `Difficulty.NA` is the unrated code, modelled as its default
numeral).  `comments` is left as an opaque list.  `cacheData` embeds the
`_cache` attribute (the instance-local payload cache). -/
structure Level where
  id : Int := 0
  name : String := ""
  creator : User := {}
  comments : List Unit := []
  description : String := ""
  song : Option Song := some Song.empty
  track_id : Int := 0
  level_version : Int := 0
  length : Int := 0
  dual : Bool := false
  unlisted : Bool := false
  extra_str : String := "0_0_0_0_0_0_0_0_0_0_0_0_0_0_0_0_0_0_0_0_0_0_0_0_0_0_0_0_0_0_0_0_0_0_0_0_0_0_0_0_0_0_0_0_0_0_0_0_0_0_0_0_0_0_0"
  replay : String := ""
  game_version : Int := 22
  binary_version : Int := 35
  timestamp : Int := 0
  likes : Int := 0
  downloads : Int := 0
  stars : Int := 0
  difficulty : Int := 0
  demon_diff : Int := 0
  coins : Int := 0
  coins_verified : Bool := false
  requested_stars : Int := 0
  feature_id : Int := 0
  rate_status : Int := 0
  ldm : Bool := false
  objects : Int := 0
  password : Int := 0
  working_time : Int := 0
  cacheData : String := ""
deriving DecidableEq

/-- `Level()`: the bare-constructor placeholder. -/
def Level.pyNew : Level := {}

/-- A row answered by the level fetch query in `Level.from_sql`, in the
positional order the source unpacks (lines 180–210). -/
structure LevelRow where
  id : Int
  name : String
  user_id : Int
  description : String
  song_id : Int
  extra_str : String
  replay : String
  game_version : Int
  binary_version : Int
  timestamp : Int
  downloads : Int
  likes : Int
  stars : Int
  difficulty : Int
  demon_diff : Int
  coins : Int
  coins_verified : Bool
  requested_stars : Int
  feature_id : Int
  rate_status : Int
  ldm : Bool
  objects : Int
  password : Int
  working_time : Int
  level_version : Int
  track_id : Int
  dualRow : Bool
  lengthRow : Int
  unlisted : Bool
deriving DecidableEq

/-- The positional assignment of a level row onto a fresh `Level`
(`Level.from_sql` lines 180–210; `user_id` and `song_id` are consumed
separately by the nested resolutions). -/
def levelOfRow (r : LevelRow) : Level :=
  { Level.pyNew with
    id := r.id, name := r.name, description := r.description,
    extra_str := r.extra_str, replay := r.replay,
    game_version := r.game_version, binary_version := r.binary_version,
    timestamp := r.timestamp, downloads := r.downloads, likes := r.likes,
    stars := r.stars, difficulty := r.difficulty,
    demon_diff := r.demon_diff, coins := r.coins,
    coins_verified := r.coins_verified,
    requested_stars := r.requested_stars, feature_id := r.feature_id,
    rate_status := r.rate_status, ldm := r.ldm, objects := r.objects,
    password := r.password, working_time := r.working_time,
    level_version := r.level_version, track_id := r.track_id,
    dual := r.dualRow, length := r.lengthRow, unlisted := r.unlisted }

/-- The parameters of the `INSERT INTO levels` statement issued by
`Level.insert` (lines 261–274), in source order. -/
structure LevelInsertParams where
  name : String
  user_id : Int
  description : String
  song_id : Int
  replay : String
  game_version : Int
  binary_version : Int
  timestamp : Int
  coins : Int
  requested_stars : Int
  ldm : Bool
  objects : Int
  password : Int
  working_time : Int
  level_version : Int
  track_id : Int
  length : Int
  dual : Bool
  unlisted : Bool
deriving DecidableEq, Repr

/-- One observable interaction of the Level code with its collaborators:
the shared level cache (`glob.level_cache`), the MySQL adapter, the user
resolver, the nested Song resolution, and the payload file store. -/
inductive LevelEvent where
  | cacheGet (id : Int)
  | cacheInsert (id : Int)
  | sqlFetch (id : Int)
  | sqlInsert (p : LevelInsertParams)
  | userResolve (id : Int)
  | songEv (e : SongEvent)
  | fsExists (id : Int)
  | fsRead (id : Int)
  | fsWrite (id : Int) (contents : String)
deriving DecidableEq, Repr

/-- The collaborators of the Level code: the shared level cache, the
`levels` table, the user resolver, the Song collaborators, the payload
file store (contents by level id), the adapter's last row id, and the
clock behind `get_timestamp`. -/
structure LevelEnv where
  cache : Int → Option Level
  sql : Int → Option LevelRow
  users : Int → User
  song : SongEnv
  files : Int → Option String
  lastrowid : Int
  now : Int

/-- `Level.from_sql` (lines 150–217): fetch one row; a `None` row
returns `None`; on a hit the row is unpacked, the creator and the song
are resolved (`User.from_id`, `Song.from_id`), and comments are
optionally fetched (`_fetch_comments` has an empty body).  The method
then ends **without a `return` statement**, so Python yields `None` even
on a hit — the fully built instance is discarded.  The `level` binding
below is that discarded instance. -/
def Level.from_sql (env : LevelEnv) (level_id : Int) (full : Bool) :
    Except String (Option Level) × List LevelEvent :=
  match env.sql level_id with
  | none => (.ok none, [.sqlFetch level_id])
  | some r =>
    match Song.from_id env.song r.song_id with
    | (.error e, str) =>
      (.error e,
       .sqlFetch level_id :: .userResolve r.user_id :: str.map .songEv)
    | (.ok sres, str) =>
      let level : Level :=
        { levelOfRow r with creator := env.users r.user_id, song := sres }
      let _ := (level, full)
      (.ok none,
       .sqlFetch level_id :: .userResolve r.user_id :: str.map .songEv)

/-- `Level.from_id` (lines 219–234): serve from the shared level cache
when possible, otherwise fall back to `Level.from_sql` (which the source
returns without `await`ing; the transparent-await convention of the file
header applies). -/
def Level.from_id (env : LevelEnv) (level_id : Int) :
    Except String (Option Level) × List LevelEvent :=
  match env.cache level_id with
  | some l => (.ok (some l), [.cacheGet level_id])
  | none =>
    let (r, tr) := Level.from_sql env level_id true
    (r, .cacheGet level_id :: tr)

/-- `Level.load` (lines 101–127): a non-empty instance cache is returned
directly; otherwise the `path` property checks existence (no file →
`None`), the file is read, and the contents are stored in the instance
cache exactly when `sys.getsizeof` reports at most `MAX_CACHE_SIZE`. -/
def Level.load (env : LevelEnv) (l : Level) :
    Option String × Level × List LevelEvent :=
  if l.cacheData ≠ "" then (some l.cacheData, l, [])
  else
    match env.files l.id with
    | none => (none, l, [.fsExists l.id])
    | some contents =>
      let l' :=
        if getsizeof contents ≤ MAX_CACHE_SIZE then
          { l with cacheData := contents }
        else l
      (some contents, l', [.fsExists l.id, .fsRead l.id])

/-- `Level.write` (lines 129–143): contents at most `MAX_CACHE_SIZE` (as
measured by `sys.getsizeof`) replace the instance cache; larger contents
leave the instance cache as it was; either way the file is overwritten. -/
def Level.write (l : Level) (contents : String) :
    Level × List LevelEvent :=
  let l' :=
    if getsizeof contents ≤ MAX_CACHE_SIZE then
      { l with cacheData := contents }
    else l
  (l', [.fsWrite l.id contents])

/-- The message of the `FileExistsError` raised by `Level.insert`. -/
def alreadyUploadedMsg : String :=
  "Level is already uploaded (has ID assigned)."

/-- The message of the `FileNotFoundError` raised by `Level.update`. -/
def notUploadedMsg : String :=
  "Level has not been uploaded yet."

/-- `Level.insert` (lines 246–274): a truthy id raises
`FileExistsError` before any store interaction; otherwise a timestamp is
taken, the row is written, and the id is set from the adapter's last row
id.  (Accessing `self.song.id` on a `None` song would raise
`AttributeError`.) -/
def Level.insert (env : LevelEnv) (l : Level) :
    Except String Level × List LevelEvent :=
  if l.id ≠ 0 then (.error alreadyUploadedMsg, [])
  else
    match l.song with
    | none => (.error "AttributeError", [])
    | some s =>
      (.ok { l with id := env.lastrowid },
       [.sqlInsert
         { name := l.name, user_id := l.creator.id,
           description := l.description, song_id := s.id,
           replay := l.replay, game_version := l.game_version,
           binary_version := l.binary_version, timestamp := env.now,
           coins := l.coins, requested_stars := l.requested_stars,
           ldm := l.ldm, objects := l.objects, password := l.password,
           working_time := l.working_time,
           level_version := l.level_version, track_id := l.track_id,
           length := l.length, dual := l.dual, unlisted := l.unlisted }])

/-- The keyword arguments accepted by `Level.update`; `none` embeds "key
absent from `kwargs`". -/
structure LevelUpdateArgs where
  name : Option String := none
  desc : Option String := none
  version : Option Int := none
  lengthArg : Option Int := none
  ldm : Option Bool := none
  coins : Option Int := none
  verified_coins : Option Bool := none
  dual : Option Bool := none
  password : Option Int := none
  objects : Option Int := none
  song_id : Option Int := none
  work_time : Option Int := none
  unlisted : Option Bool := none
  game_version : Option Int := none
  binary_version : Option Int := none
  track_id : Option Int := none
deriving Repr

/-- `Level.update` (lines 276–352): a falsy id raises
`FileNotFoundError`; a truthy `song_id` kwarg resolves and assigns the
song and sets `track_id = 0`, otherwise `track_id` is assigned
`kwargs.get("track_id", 0)` (line 332 — default `0`, not the current
value); the listed scalar fields are then each assigned
`kwargs.get(key, current)`, ending with line 350's second `track_id`
assignment whose default is the (by now possibly overwritten) current
value. -/
def Level.update (env : LevelEnv) (l : Level) (args : LevelUpdateArgs) :
    Except String Level :=
  if l.id = 0 then .error notUploadedMsg
  else
    let afterSong : Except String Level :=
      match args.song_id with
      | some sid =>
        if sid ≠ 0 then
          match Song.from_id env.song sid with
          | (.error e, _) => .error e
          | (.ok sres, _) => .ok { l with song := sres, track_id := 0 }
        else .ok { l with track_id := args.track_id.getD 0 }
      | none => .ok { l with track_id := args.track_id.getD 0 }
    match afterSong with
    | .error e => .error e
    | .ok l1 =>
      let l2 :=
        { l1 with
          name := args.name.getD l1.name,
          description := args.desc.getD l1.description,
          level_version := args.version.getD l1.level_version,
          length := args.lengthArg.getD l1.length,
          ldm := args.ldm.getD l1.ldm,
          coins := args.coins.getD l1.coins,
          coins_verified := args.verified_coins.getD l1.coins_verified,
          dual := args.dual.getD l1.dual,
          password := args.password.getD l1.password,
          objects := args.objects.getD l1.objects,
          working_time := args.work_time.getD l1.working_time,
          unlisted := args.unlisted.getD l1.unlisted,
          game_version := args.game_version.getD l1.game_version,
          binary_version := args.binary_version.getD l1.binary_version }
      .ok { l2 with track_id := args.track_id.getD l2.track_id }

/-! ## Trace predicates and concrete scenarios

The remaining definitions are the concrete stores, caches and entities
the theorems below evaluate the embedded code on. -/

/-- Whether a song event is a persistence event: a store insert or a
shared-cache insert. -/
def isPersistEv : SongEvent → Bool
  | .sqlInsert _ => true
  | .cacheInsert _ _ => true
  | _ => false

/-- Whether a level event is a shared-level-cache insert. -/
def isLevelCacheInsert : LevelEvent → Bool
  | .cacheInsert _ => true
  | _ => false

/-- A `levels` row with id 5, creator 3 and no custom song, used as the
store contents for the Level-resolution scenarios. -/
def row5 : LevelRow :=
  { id := 5, name := "lvl", user_id := 3, description := "", song_id := 0,
    extra_str := "", replay := "", game_version := 22, binary_version := 35,
    timestamp := 0, downloads := 0, likes := 0, stars := 0, difficulty := 0,
    demon_diff := 0, coins := 0, coins_verified := false,
    requested_stars := 0, feature_id := 0, rate_status := 0, ldm := false,
    objects := 0, password := 0, working_time := 0, level_version := 1,
    track_id := 0, dualRow := false, lengthRow := 0, unlisted := false }

/-- Song collaborators with empty cache, empty store, and a Boomlings
API that answers every request with the catalog's numeric error body
`-1`. -/
def senv0 : SongEnv :=
  { cache := fun _ => none, sql := fun _ => none,
    boomlings := fun _ => "-1", lastrowid := 9 }

/-- Level collaborators: empty level cache, a store holding exactly
`row5`, a user resolver, `senv0` for songs, and an empty file store. -/
def env1 : LevelEnv :=
  { cache := fun _ => none,
    sql := fun i => if i = 5 then some row5 else none,
    users := fun u => { id := u }, song := senv0,
    files := fun _ => none, lastrowid := 7, now := 100 }

/-- Song collaborators whose cache and store are empty but whose
Boomlings API answers song 42 with a well-formed record. -/
def senv5 : SongEnv :=
  { cache := fun _ => none, sql := fun _ => none,
    boomlings := fun _ =>
      "1~|~42~|~2~|~T~|~3~|~7~|~4~|~A~|~5~|~1.5~|~7~|~yt~|~10~|~u",
    lastrowid := 42 }

/-- The song decoded from `senv5`'s Boomlings body. -/
def s42 : Song :=
  { id := 42, title := "T", author_id := 7, author_name := "A",
    size := ⟨15, 1⟩, author_yt := "yt", url := "u" }

/-- A payload of 6000 ASCII characters: `sys.getsizeof` reports 6049,
above `MAX_CACHE_SIZE`. -/
def bigPayload : String := String.mk (List.replicate 6000 'a')

/-- An uploaded level whose instance cache still holds a previously
loaded small payload `"old"`. -/
def l2 : Level := { id := 1, cacheData := "old" }

/-- The level `l2` after `write(bigPayload)`. -/
def l2w : Level := (Level.write l2 bigPayload).1

/-- Level collaborators whose file store holds `bigPayload` for level 1
(the state right after the overwrite performed by `write`). -/
def env2 : LevelEnv :=
  { env1 with files := fun i => if i = 1 then some bigPayload else none }

/-- A custom song with id 5 for the update scenarios. -/
def s5 : Song := { id := 5, title := "song5" }

/-- Song collaborators whose shared cache holds `s5`. -/
def senv3 : SongEnv :=
  { senv0 with cache := fun i => if i = 5 then some s5 else none }

/-- Level collaborators delegating song resolution to `senv3`. -/
def env3 : LevelEnv := { env1 with song := senv3 }

/-- An uploaded level with all fields at their defaults. -/
def l3 : Level := { id := 1 }

/-- `l3` after `update(song_id=5)`: the song reference is set and the
track identifier is (still) the default. -/
def l3a : Level := { l3 with song := some s5 }

/-- `l3a` after `update(track_id=7)`: the track identifier is set but
the song reference from the previous update is still in place. -/
def l3b : Level := { l3a with track_id := 7 }

/-- An uploaded level with in-game track 7. -/
def l4 : Level := { id := 1, track_id := 7 }

/-- `l4` after `update(name="x")`: the track identifier has been reset
to 0 although the change set never named it. -/
def l4a : Level := { l4 with name := "x", track_id := 0 }

/-- A song already carrying the persistent identifier 5. -/
def s6 : Song := { id := 5, title := "t" }

/-- A level already carrying the persistent identifier 5. -/
def lId5 : Level := { id := 5 }

/-- Level collaborators whose file store answers level 1 with the small
payload `"abc"`. -/
def envw : LevelEnv :=
  { env1 with files := fun i => if i = 1 then some "abc" else none }

/-- An uploaded level with an empty instance cache. -/
def lw : Level := { id := 1 }

/-! ## Theorems -/

example : pyInt "42" = some 42 := by decide
example : pyInt "-1" = some (-1) := by decide
example : pyInt "" = none := by decide
example : pyInt "a1" = none := by decide
example : pyFloat "1.5" = some ⟨15, 1⟩ := by decide
example : pyFloat "-0.25" = some ⟨-25, 2⟩ := by decide
example : pyFloat "x" = none := by decide
example : is_numeric "-1" = true := by decide
example : is_numeric "hello" = false := by decide
example : parse_to_dict "1~|~42~|~2~|~T" = [(1, "42"), (2, "T")] := by decide
example : getsizeof "abc" = 52 := by decide

/-- C9: resolving a Song with the falsy identifier 0 returns a fresh
empty placeholder immediately and with an empty interaction trace — the
In-Memory Entity Cache, the Persistent Store Adapter and the External
Catalog Client are never consulted, whatever their contents. -/
theorem song_resolution_zero_shortcut (env : SongEnv) :
    Song.from_id env 0 = (Except.ok (some Song.empty), []) := rfl

/-- Instance of `song_resolution_zero_shortcut` at the concrete
collaborators `senv0`. -/
theorem song_resolution_zero_shortcut_witness :
    Song.from_id senv0 0 = (Except.ok (some Song.empty), []) :=
  song_resolution_zero_shortcut senv0

/-- C10: the empty placeholder Song carries the sentinel identifier -1
(not 0); -1 is truthy, so feeding the placeholder's identifier back into
resolution consults the cache tier instead of taking the empty-song
shortcut, and inserting a fresh Level writes `song_id = -1` into the
store. -/
theorem placeholder_sentinel_is_truthy (envS : SongEnv) (envL : LevelEnv) :
    Song.empty.id = -1 ∧ (-1 : Int) ≠ 0 ∧
    (Song.from_id envS (-1)).2.head? = some (SongEvent.cacheGet (-1)) ∧
    ∃ p : LevelInsertParams,
      Level.insert envL Level.pyNew =
        (Except.ok { Level.pyNew with id := envL.lastrowid },
         [LevelEvent.sqlInsert p]) ∧
      p.song_id = -1 := by
  refine ⟨rfl, by decide, rfl, ?_⟩
  exact ⟨_, rfl, rfl⟩

/-- Instance of `placeholder_sentinel_is_truthy` at the concrete
collaborators `senv0` and `env1`. -/
theorem placeholder_sentinel_is_truthy_witness :
    Song.empty.id = -1 ∧ (-1 : Int) ≠ 0 ∧
    (Song.from_id senv0 (-1)).2.head? = some (SongEvent.cacheGet (-1)) ∧
    ∃ p : LevelInsertParams,
      Level.insert env1 Level.pyNew =
        (Except.ok { Level.pyNew with id := env1.lastrowid },
         [LevelEvent.sqlInsert p]) ∧
      p.song_id = -1 :=
  placeholder_sentinel_is_truthy senv0 env1

/-- C1 (failing input): level 5 is present only in the store (`env1`
has an empty level cache and `row5` in the store), yet resolution by
identifier returns the absence value `None` — `Level.from_sql` builds
the instance and then falls off the end of the method — and the trace
contains no shared-level-cache insert, so an immediately following
resolution of the same identifier (the same unchanged call) consults
the store again instead of being served from cache. -/
theorem level_store_hit_returns_none_and_never_caches :
    env1.cache 5 = none ∧ env1.sql 5 = some row5 ∧
    Level.from_id env1 5 =
      (Except.ok none,
       [LevelEvent.cacheGet 5, LevelEvent.sqlFetch 5,
        LevelEvent.userResolve 3]) ∧
    (Level.from_id env1 5).2.filter isLevelCacheInsert = [] :=
  ⟨rfl, rfl, rfl, rfl⟩

/-- Every character of an all-ASCII replicated payload is narrow. -/
theorem replicate_a_all_ascii (n : Nat) :
    (List.replicate n 'a').all (fun c => c.toNat < 128) = true := by
  induction n with
  | zero => rfl
  | succ k ih => simp [List.replicate_succ, ih]

/-- `sys.getsizeof` of an `n`-character ASCII payload is `49 + n`. -/
theorem getsizeof_replicate_a (n : Nat) :
    getsizeof (String.mk (List.replicate n 'a')) = 49 + n := by
  have h := replicate_a_all_ascii n
  simp [getsizeof, h, String.length]

/-- C2 (failing input): `l2` holds the small payload `"old"` in its
instance cache; writing `bigPayload` (6049 size-units, above the 5000
threshold) leaves the instance cache holding `"old"` instead of
clearing it, so the subsequent `load()` returns the stale `"old"`
without a single file-store event — even though the store now holds
`bigPayload`. -/
theorem write_large_leaves_stale_instance_cache :
    MAX_CACHE_SIZE < getsizeof bigPayload ∧
    l2w.cacheData = "old" ∧
    env2.files l2w.id = some bigPayload ∧
    Level.load env2 l2w = (some "old", l2w, []) := by
  have hsz : getsizeof bigPayload = 6049 := by
    rw [bigPayload, getsizeof_replicate_a]
  have hw : l2w = l2 := by
    simp [l2w, Level.write, hsz, MAX_CACHE_SIZE]
  refine ⟨by rw [hsz]; decide, by rw [hw]; rfl, ?_, by rw [hw]; rfl⟩
  rw [hw]
  rfl

/-- C3 (failing input): on the uploaded level `l3`, `update(song_id=5)`
sets the song reference and clears the track identifier, but the
subsequent `update(track_id=7)` sets the track identifier **without
clearing the song reference** — afterwards both the song reference and
the track identifier are non-default, violating mutual exclusivity. -/
theorem update_track_does_not_clear_song :
    Level.update env3 l3 { song_id := some 5 } = Except.ok l3a ∧
    Level.update env3 l3a { track_id := some 7 } = Except.ok l3b ∧
    l3b.song = some s5 ∧ s5 ≠ Song.empty ∧ l3b.track_id = 7 :=
  ⟨rfl, rfl, rfl, by decide, rfl⟩

/-- C4 (failing input): `l4` has track identifier 7; an update whose
change set names only `name` resets the track identifier to 0 (line 332
of the source defaults the first `track_id` assignment to `0` rather
than to the current value), so a field absent from the change set does
not keep its prior value. -/
theorem update_without_track_resets_track :
    l4.track_id = 7 ∧
    Level.update env3 l4 { name := some "x" } = Except.ok l4a ∧
    l4a.track_id = 0 :=
  ⟨rfl, rfl, rfl⟩

/-- C6 (counterexample): `Song.insert` performs no "already exists"
check — called on the song `s6`, which already carries the non-sentinel
identifier 5, it performs the store write (with the explicit id 5) and
returns normally instead of failing. -/
theorem song_insert_writes_despite_existing_id :
    s6.id = 5 ∧
    Song.insert senv0 s6 =
      ({ s6 with id := 9 },
       [SongEvent.sqlInsert
         { id := some 5, title := "t", author_id := 0,
           author_name := "", size := ⟨0, 0⟩, author_yt := "",
           download := "" }]) :=
  ⟨rfl, rfl⟩

/-- C6 (amended): for the **Level** entity the create-once contract
holds — `Level.insert` on an instance already carrying a non-zero
identifier fails with the "already uploaded" error and performs no store
write, and inserting a fresh instance succeeds with exactly one store
write after which a second insert on the same instance fails without a
second write.  `Song.insert` performs no such check (see the
counterexample `song_insert_writes_despite_existing_id`). -/
theorem level_insert_create_once (env : LevelEnv) (l : Level) :
    (l.id ≠ 0 →
      Level.insert env l = (Except.error alreadyUploadedMsg, [])) ∧
    (l.id = 0 → env.lastrowid ≠ 0 → ∀ s : Song, l.song = some s →
      ∃ l1 p,
        Level.insert env l = (Except.ok l1, [LevelEvent.sqlInsert p]) ∧
        Level.insert env l1 = (Except.error alreadyUploadedMsg, [])) := by
  constructor
  · intro h
    simp [Level.insert, h]
  · intro h0 hrow s hs
    have h1 : Level.insert env l =
        (Except.ok { l with id := env.lastrowid },
         [LevelEvent.sqlInsert
           { name := l.name, user_id := l.creator.id,
             description := l.description, song_id := s.id,
             replay := l.replay, game_version := l.game_version,
             binary_version := l.binary_version, timestamp := env.now,
             coins := l.coins, requested_stars := l.requested_stars,
             ldm := l.ldm, objects := l.objects, password := l.password,
             working_time := l.working_time,
             level_version := l.level_version, track_id := l.track_id,
             length := l.length, dual := l.dual,
             unlisted := l.unlisted }]) := by
      simp [Level.insert, h0, hs]
    refine ⟨_, _, h1, ?_⟩
    simp [Level.insert, hrow]

/-- Instance of `level_insert_create_once`: the already-identified level
`lId5` is rejected with no write, and a fresh level inserts once and is
rejected on the second attempt. -/
theorem level_insert_create_once_witness :
    (Level.insert env1 lId5 = (Except.error alreadyUploadedMsg, [])) ∧
    (∃ l1 p,
      Level.insert env1 Level.pyNew =
        (Except.ok l1, [LevelEvent.sqlInsert p]) ∧
      Level.insert env1 l1 = (Except.error alreadyUploadedMsg, [])) :=
  ⟨(level_insert_create_once env1 lId5).1 (by decide),
   (level_insert_create_once env1 Level.pyNew).2 rfl (by decide)
     Song.empty rfl⟩

/-- A successful external-catalog decode has exactly the request event
as its trace: `Song.from_boomlings` performs no insert of any kind. -/
theorem boomlings_ok_trace (env : SongEnv) (sid : Int) (s : Song)
    (tr : List SongEvent)
    (h : Song.from_boomlings env sid = (Except.ok (some s), tr)) :
    tr = [SongEvent.boomRequest sid] := by
  unfold Song.from_boomlings decodeBoomlings at h
  split at h
  · simp at h
  · split at h
    · split at h
      · simp only [Prod.mk.injEq] at h
        exact h.2.symm
      · simp at h
    · simp at h

/-- C5: for a song identifier absent from the cache and the store but
answered by the External Catalog Client with a decodable record, Song
resolution performs exactly one store insert and exactly one cache
insert, in that order, before returning the entity: filtering the full
interaction trace down to persistence events yields precisely the
store insert followed by the cache insert of the returned song. -/
theorem external_hit_inserts_store_then_cache (env : SongEnv) (sid : Int)
    (s : Song) (tr : List SongEvent) (h0 : sid ≠ 0)
    (hc : env.cache sid = none) (hs : env.sql sid = none)
    (hb : Song.from_boomlings env sid = (Except.ok (some s), tr)) :
    ∃ s' p, (Song.from_id env sid).1 = Except.ok (some s') ∧
      (Song.from_id env sid).2.filter isPersistEv =
        [SongEvent.sqlInsert p, SongEvent.cacheInsert s'.id s'] := by
  have htr := boomlings_ok_trace env sid s tr hb
  subst htr
  have hsql : Song.from_sql env sid = (none, [SongEvent.sqlFetch sid]) := by
    simp [Song.from_sql, hs]
  refine ⟨{ s with id := env.lastrowid },
    { id := if s.id = -1 then none else some s.id, title := s.title,
      author_id := s.author_id, author_name := s.author_name,
      size := s.size, author_yt := s.author_yt, download := s.url },
    ?_, ?_⟩
  · simp [Song.from_id, h0, hc, hsql, hb, Song.insert]
  · simp [Song.from_id, h0, hc, hsql, hb, Song.insert, isPersistEv]

/-- Instance of `external_hit_inserts_store_then_cache` at the concrete
collaborators `senv5`, whose Boomlings API decodes song 42 to `s42`. -/
theorem external_hit_inserts_store_then_cache_witness :
    ((42 : Int) ≠ 0) ∧ senv5.cache 42 = none ∧ senv5.sql 42 = none ∧
    Song.from_boomlings senv5 42 =
      (Except.ok (some s42), [SongEvent.boomRequest 42]) ∧
    (∃ s' p, (Song.from_id senv5 42).1 = Except.ok (some s') ∧
      (Song.from_id senv5 42).2.filter isPersistEv =
        [SongEvent.sqlInsert p, SongEvent.cacheInsert s'.id s']) :=
  ⟨by decide, rfl, rfl, rfl,
   external_hit_inserts_store_then_cache senv5 42 s42
     [SongEvent.boomRequest 42] (by decide) rfl rfl rfl⟩

/-- C7: with an empty instance cache and an existing payload file,
`load()` stores the payload in the instance-local cache exactly when
`sys.getsizeof` (the size-unit measure, charging multi-byte characters
their code-unit width) reports at most the 5000-unit threshold; a
payload above the threshold leaves the cache empty, is still returned,
and a later `load()` on the resulting instance re-reads from the file
store (its trace ends with the read event). -/
theorem load_caches_iff_small (env : LevelEnv) (l : Level)
    (contents : String) (hc : l.cacheData = "")
    (hf : env.files l.id = some contents) :
    ((Level.load env l).2.1.cacheData = contents ↔
       getsizeof contents ≤ MAX_CACHE_SIZE) ∧
    (MAX_CACHE_SIZE < getsizeof contents →
       (Level.load env l).2.1.cacheData = "" ∧
       (Level.load env l).1 = some contents ∧
       Level.load env (Level.load env l).2.1 =
         (some contents, (Level.load env l).2.1,
          [LevelEvent.fsExists l.id, LevelEvent.fsRead l.id])) := by
  have hload : Level.load env l =
      (some contents,
       (if getsizeof contents ≤ MAX_CACHE_SIZE then
          { l with cacheData := contents } else l),
       [LevelEvent.fsExists l.id, LevelEvent.fsRead l.id]) := by
    simp [Level.load, hc, hf]
  constructor
  · rw [hload]
    by_cases hsz : getsizeof contents ≤ MAX_CACHE_SIZE
    · simp [hsz]
    · simp only [if_neg hsz, hc]
      constructor
      · intro hcon
        rw [← hcon] at hsz
        exact absurd (by decide) hsz
      · intro hcon
        exact absurd hcon hsz
  · intro h
    have hsz : ¬ getsizeof contents ≤ MAX_CACHE_SIZE := by omega
    have hl2 : (Level.load env l).2.1 = l := by
      rw [hload]
      simp [if_neg hsz]
    refine ⟨by rw [hl2, hc], by rw [hload], ?_⟩
    rw [hl2, hload]
    simp [if_neg hsz]

/-- Instance of `load_caches_iff_small` at `envw`, whose file store
holds the small payload `"abc"` for level 1. -/
theorem load_caches_iff_small_witness :
    lw.cacheData = "" ∧ envw.files lw.id = some "abc" ∧
    (((Level.load envw lw).2.1.cacheData = "abc" ↔
       getsizeof "abc" ≤ MAX_CACHE_SIZE) ∧
     (MAX_CACHE_SIZE < getsizeof "abc" →
       (Level.load envw lw).2.1.cacheData = "" ∧
       (Level.load envw lw).1 = some "abc" ∧
       Level.load envw (Level.load envw lw).2.1 =
         (some "abc", (Level.load envw lw).2.1,
          [LevelEvent.fsExists lw.id, LevelEvent.fsRead lw.id]))) :=
  ⟨rfl, rfl, load_caches_iff_small envw lw "abc" rfl rfl⟩

/-- C8: for a song identifier that misses the cache and the store and
whose external-catalog response body is empty or numeric-only, Song
resolution logs the failure (the error and debug log events carry the
identifier and the raw body), returns the explicit absence value inside
a normal (non-exceptional) result, and issues exactly one external
request — no retry. -/
theorem malformed_external_body_not_found (env : SongEnv) (sid : Int)
    (h0 : sid ≠ 0) (hc : env.cache sid = none) (hs : env.sql sid = none)
    (hb : env.boomlings sid = "" ∨
      is_numeric (env.boomlings sid) = true) :
    Song.from_id env sid =
      (Except.ok none,
       [SongEvent.cacheGet sid, SongEvent.sqlFetch sid,
        SongEvent.boomRequest sid, SongEvent.logError sid,
        SongEvent.logDebug (env.boomlings sid)]) := by
  have hcond : (is_numeric (env.boomlings sid) ||
      decide (env.boomlings sid = "")) = true := by
    rcases hb with hb | hb
    · simp [hb]
    · simp [hb]
  have hboom : Song.from_boomlings env sid =
      (Except.ok none,
       [SongEvent.boomRequest sid, SongEvent.logError sid,
        SongEvent.logDebug (env.boomlings sid)]) := by
    unfold Song.from_boomlings decodeBoomlings
    simp [hcond]
  have hsql : Song.from_sql env sid = (none, [SongEvent.sqlFetch sid]) := by
    simp [Song.from_sql, hs]
  simp [Song.from_id, h0, hc, hsql, hboom]

/-- Instance of `malformed_external_body_not_found` at `senv0`, whose
Boomlings API answers every request with the numeric-only body `-1`. -/
theorem malformed_external_body_not_found_witness :
    ((42 : Int) ≠ 0) ∧ senv0.cache 42 = none ∧ senv0.sql 42 = none ∧
    is_numeric (senv0.boomlings 42) = true ∧
    Song.from_id senv0 42 =
      (Except.ok none,
       [SongEvent.cacheGet 42, SongEvent.sqlFetch 42,
        SongEvent.boomRequest 42, SongEvent.logError 42,
        SongEvent.logDebug (senv0.boomlings 42)]) :=
  ⟨by decide, rfl, rfl, by decide,
   malformed_external_body_not_found senv0 42 (by decide) rfl rfl
     (Or.inr (by decide))⟩
